import Mathlib

/-!
Shallow embedding of the cloudfile-mover chunked transfer engine
(src/cloudfile-mover/core.py).  Byte strings are modelled as `List Nat`
(one entry per byte / ASCII character).
-/

/-- ASCII decimal digits of `n`, most significant first, fuel-based recursion
on `n / 10`; models the decimal rendering done by Python string formatting. -/
def dec_digits_aux : Nat → Nat → List Nat
  | 0, _ => []
  | fuel + 1, n => if n = 0 then [] else dec_digits_aux fuel (n / 10) ++ [n % 10 + 48]

/-- ASCII decimal string of a natural number (`"0"` for zero). -/
def dec_string (n : Nat) : List Nat :=
  if n = 0 then [48] else dec_digits_aux n n

/-- Python `f"{n:06d}"`: the decimal string left-padded with ASCII `'0'` to width 6. -/
def zero_pad6 (n : Nat) : List Nat :=
  List.replicate (6 - (dec_string n).length) 48 ++ dec_string n

/-- Base64 alphabet: sextet value to ASCII code
(`A..Z`, `a..z`, `0..9`, `+`, `/`). -/
def b64char (s : Nat) : Nat :=
  if s < 26 then 65 + s
  else if s < 52 then 97 + (s - 26)
  else if s < 62 then 48 + (s - 52)
  else if s = 62 then 43 else 47

/-- Standard base64 of a byte string, result as ASCII codes (61 is `'='` padding);
models `base64.b64encode`. -/
def b64encode : List Nat → List Nat
  | [] => []
  | [b0] => [b64char (b0 / 4), b64char (b0 % 4 * 16), 61, 61]
  | [b0, b1] => [b64char (b0 / 4), b64char (b0 % 4 * 16 + b1 / 16), b64char (b1 % 16 * 4), 61]
  | b0 :: b1 :: b2 :: rest =>
      b64char (b0 / 4) :: b64char (b0 % 4 * 16 + b1 / 16) ::
      b64char (b1 % 16 * 4 + b2 / 64) :: b64char (b2 % 64) :: b64encode rest

/-- Block id used by `AzureDest.upload_part`:
`base64.b64encode(f"{part_number:06d}".encode())`. -/
def block_id (part_number : Nat) : List Nat := b64encode (zero_pad6 part_number)

/-- Lexicographic (code-point) comparison of ASCII strings, as used by
Python's `list.sort()` on `str`. -/
def lex_le : List Nat → List Nat → Bool
  | [], _ => true
  | _ :: _, [] => false
  | a :: xs, b :: ys => if a < b then true else if b < a then false else lex_le xs ys

/-- Insertion step of the string sort. -/
def sort_insert (x : List Nat) : List (List Nat) → List (List Nat)
  | [] => [x]
  | y :: ys => if lex_le x y then x :: y :: ys else y :: sort_insert x ys

/-- Sorting a list of ASCII strings in code-point order; models
`self.block_ids.sort()` in `AzureDest.complete`. -/
def sort_strings (l : List (List Nat)) : List (List Nat) := l.foldr sort_insert []

/-- Association-list lookup (first match). -/
def assocGet {κ ν : Type} [DecidableEq κ] : List (κ × ν) → κ → Option ν
  | [], _ => none
  | (k', v) :: rest, k => if k' = k then some v else assocGet rest k

/-- Association-list update: overwrite the binding of `k` if present, else append.
Models server-side re-staging of a block under an already-used block id. -/
def assocSet {κ ν : Type} [DecidableEq κ] : List (κ × ν) → κ → ν → List (κ × ν)
  | [], k, v => [(k, v)]
  | (k', v') :: rest, k, v =>
      if k' = k then (k, v) :: rest else (k', v') :: assocSet rest k v

/-- State of an `AzureDest` handle: the client-side `block_ids` list plus the
service-side store of staged (uncommitted) blocks, keyed by block id. -/
structure AzureDestState where
  block_ids : List (List Nat)
  staged : List (List Nat × List Nat)

/-- Fresh `AzureDest` handle: `self.block_ids = []`, nothing staged. -/
def AzureDest.init : AzureDestState := ⟨[], []⟩

/-- AzureDest.upload_part: stage the data under `block_id part_number`
(the service overwrites a block staged under the same id) and append the id
to `self.block_ids`. -/
def AzureDest.upload_part (st : AzureDestState) (part_number : Nat) (data : List Nat) :
    AzureDestState :=
  { block_ids := st.block_ids ++ [block_id part_number],
    staged := assocSet st.staged (block_id part_number) data }

/-- Order in which `AzureDest.complete` commits the staged blocks:
the `block_ids` list sorted as strings. -/
def AzureDest.commit_order (st : AzureDestState) : List (List Nat) :=
  sort_strings st.block_ids

/-- AzureDest.complete: content of the committed blob.  With no block ids an
empty blob is uploaded; otherwise the block id list is sorted as strings and
`commit_block_list` concatenates the staged blocks in that list order
(a block id occurring twice contributes its staged bytes twice). -/
def AzureDest.complete (st : AzureDestState) : List Nat :=
  if st.block_ids.isEmpty then []
  else ((sort_strings st.block_ids).map (fun bid => (assocGet st.staged bid).getD [])).flatten

/-- Default chunk size in `move_file`: `64 * 1024 * 1024`. -/
def default_chunk : Nat := 64 * 1024 * 1024

/-- Chunk size chosen by `move_file`: `file_size` when it is below the
ceiling `m`, else `m` itself. -/
def chunk_size (size m : Nat) : Nat := if size < m then size else m

/-- Exact natural ceiling division, modelling `math.ceil(size / chunk)` on the
integer sizes involved (undefined for a zero divisor, which the caller guards). -/
def ceil_div (a b : Nat) : Nat := (a + b - 1) / b

/-- Number of parts planned by `move_file`: `math.ceil(file_size / chunk_size)`.
When `chunk_size = 0` (a zero-byte source with `m > 0`), the Python division
`file_size / chunk_size` raises `ZeroDivisionError`, modelled as `none`. -/
def num_parts_of (size m : Nat) : Option Nat :=
  if chunk_size size m = 0 then none else some (ceil_div size (chunk_size size m))

/-- Length of part `i` in `transfer_part`:
`chunk_size` when `offset + chunk_size <= file_size`, else `file_size - offset`. -/
def part_len (size c i : Nat) : Nat :=
  if i * c + c ≤ size then c else size - i * c

/-- The plan implicit in `move_file`/`transfer_part`: for each part index
`i < num_parts` the pair `(offset, bytes_to_read)`.  `none` when the
part-count computation raises (zero-byte source). -/
def plan_parts (size m : Nat) : Option (List (Nat × Nat)) :=
  match num_parts_of size m with
  | none => none
  | some n =>
      some ((List.range n).map (fun i =>
        (i * chunk_size size m, part_len size (chunk_size size m) i)))

/-- Source `read_range`: bytes `[offset, offset + len)` of the object. -/
def read_range (data : List Nat) (offset len : Nat) : List Nat :=
  (data.drop offset).take len

/-- The `(part_number, bytes)` pairs delivered to `dest.upload_part` by the
workers, listed in ascending part-number order: worker `i` reads
`read_range(offset, bytes_to_read)` and uploads it tagged `i + 1`. -/
def delivered_uploads (data : List Nat) (m : Nat) : List (Nat × List Nat) :=
  match num_parts_of data.length m with
  | none => []
  | some n =>
      (List.range n).map (fun i =>
        (i + 1, read_range data (i * chunk_size data.length m)
                  (part_len data.length (chunk_size data.length m) i)))

/-- Effective thread count in `move_file`:
`if num_parts < threads: threads = num_parts`. -/
def effective_threads (threads num_parts : Nat) : Nat :=
  if num_parts < threads then num_parts else threads

/-- Errors that can surface from a transfer, by origin. -/
inductive MoveErr : Type
  | planError
  | partError
  | finalizeError
  | deleteError
deriving DecidableEq

/-- Observable outcome of one `move_file` call: which terminal calls the
destination handle received, whether the source was deleted, whether the call
returned success, which error (if any) was raised to the caller, and whether a
failure of `abort` itself was merely logged. -/
structure MoveOutcome where
  finalizeCalled : Bool
  abortCalls : Nat
  deleteCalled : Bool
  success : Bool
  surfaced : Option MoveErr
  abortErrorLogged : Bool
deriving DecidableEq

/-- Control flow of `move_file`'s `try`/`except` (lines 282-341 of core.py),
abstracted over which steps fail.  Inside the `try`: planning (which raises
`ZeroDivisionError` on a zero-byte source), the part workers (whose first
exception re-raises from `future.result()`), then `dest.complete()`, then
`src.delete()`, then `return True`.  The `except` logs the error, calls
`dest.abort()` once inside its own `try`/`except` (so an abort failure is only
logged), and re-raises the original error. -/
def move_file (size : Nat) (partFail finalizeFail deleteFail abortFail : Bool) :
    MoveOutcome :=
  match plan_parts size default_chunk with
  | none =>
      { finalizeCalled := false, abortCalls := 1, deleteCalled := false,
        success := false, surfaced := some .planError, abortErrorLogged := abortFail }
  | some _ =>
      if partFail then
        { finalizeCalled := false, abortCalls := 1, deleteCalled := false,
          success := false, surfaced := some .partError, abortErrorLogged := abortFail }
      else if finalizeFail then
        { finalizeCalled := true, abortCalls := 1, deleteCalled := false,
          success := false, surfaced := some .finalizeError, abortErrorLogged := abortFail }
      else if deleteFail then
        { finalizeCalled := true, abortCalls := 1, deleteCalled := true,
          success := false, surfaced := some .deleteError, abortErrorLogged := abortFail }
      else
        { finalizeCalled := true, abortCalls := 0, deleteCalled := true,
          success := true, surfaced := none, abortErrorLogged := false }

/-- Retry loop of `transfer_part` (core.py lines 303-319): `attempt = 0`, then
`while True`: run the body; on success return; on exception increment
`attempt`, re-raise once `attempt >= 3`, else `time.sleep(1 * attempt)`.
`ok t` tells whether the body's execution number `t` (0-based) succeeds.
Returns (succeeded, total attempts, list of sleep durations).  Fuel 3 covers
every reachable iteration since the loop raises at the third failure. -/
def retry_go (ok : Nat → Bool) : Nat → Nat → List Nat → Bool × Nat × List Nat
  | 0, t, sleeps => (false, t, sleeps)
  | fuel + 1, t, sleeps =>
      if ok t then (true, t + 1, sleeps)
      else if t + 1 ≥ 3 then (false, t + 1, sleeps)
      else retry_go ok fuel (t + 1) (sleeps ++ [1 * (t + 1)])

/-- One part's retry behaviour in `transfer_part`. -/
def transfer_part (ok : Nat → Bool) : Bool × Nat × List Nat :=
  retry_go ok 3 0 []

/-- Azure service container: blob name (as a key) to committed blob content. -/
def azure_delete_blob (store : List (Nat × List Nat)) (name : Nat) :
    List (Nat × List Nat) :=
  store.filter (fun p => p.1 ≠ name)

/-- AzureDest.abort: `try: self.blob_client.delete_blob() except: pass` —
it deletes whatever committed blob currently sits at the destination name
(swallowing the error when there is none), rather than only discarding the
blocks staged by this transfer. -/
def AzureDest.abort (store : List (Nat × List Nat)) (name : Nat) :
    List (Nat × List Nat) :=
  azure_delete_blob store name

theorem chunk_size_eq_min (s m : Nat) : chunk_size s m = min s m := by
  unfold chunk_size; split <;> omega

theorem chunk_size_pos {s m : Nat} (hs : 0 < s) (hm : 0 < m) : 0 < chunk_size s m := by
  unfold chunk_size; split <;> omega

theorem ceil_div_pos {s c : Nat} (hc : 0 < c) (hs : 0 < s) : 0 < ceil_div s c := by
  have h : (1 : Nat) ≤ (s + c - 1) / c := by
    rw [Nat.le_div_iff_mul_le hc]; omega
  unfold ceil_div; omega

theorem ceil_div_eq_zero {s c : Nat} (hc : 0 < c) (h : ceil_div s c = 0) : s = 0 := by
  by_contra hs
  have := ceil_div_pos hc (Nat.pos_of_ne_zero hs)
  omega

theorem mul_lt_of_lt_ceil_div {s c i : Nat} (hc : 0 < c) (hi : i < ceil_div s c) :
    i * c < s := by
  by_contra hle
  push_neg at hle
  have h2 : ceil_div s c ≤ i := by
    unfold ceil_div
    rw [Nat.div_le_iff_le_mul_add_pred hc]
    rw [Nat.mul_comm] at hle
    omega
  omega

theorem ceil_div_eq_one {s c : Nat} (hs : 0 < s) (hsc : s ≤ c) : ceil_div s c = 1 := by
  unfold ceil_div
  exact Nat.div_eq_of_lt_le (by omega) (by omega)

theorem ceil_div_succ_sub {s c : Nat} (hc : 0 < c) (h : c < s) :
    ceil_div s c = ceil_div (s - c) c + 1 := by
  unfold ceil_div
  have h1 : s + c - 1 = c * 1 + (s - 1) := by omega
  have h2 : s - c + c - 1 = s - 1 := by omega
  rw [h1, h2, Nat.mul_add_div hc]
  omega

theorem ceil_div_eq_pred_div_add_one {s c : Nat} (hc : 0 < c) (hs : 0 < s) :
    ceil_div s c = (s - 1) / c + 1 := by
  unfold ceil_div
  have h1 : s + c - 1 = c * 1 + (s - 1) := by omega
  rw [h1, Nat.mul_add_div hc]
  omega

theorem flatten_chunks {c : Nat} (hc : 0 < c) :
    ∀ (n : Nat) (data : List Nat), ceil_div data.length c = n →
      ((List.range n).map (fun i => (data.drop (i * c)).take c)).flatten = data := by
  intro n
  induction n with
  | zero =>
      intro data h
      have h0 : data.length = 0 := ceil_div_eq_zero hc h
      have : data = [] := List.eq_nil_of_length_eq_zero h0
      subst this
      simp
  | succ n ih =>
      intro data h
      have hs : 0 < data.length := by
        by_contra h0
        push_neg at h0
        have h1 : data.length = 0 := by omega
        have : data = [] := List.eq_nil_of_length_eq_zero h1
        subst this
        have : ceil_div 0 c = 0 := by
          unfold ceil_div
          exact Nat.div_eq_of_lt (by omega)
        simp at h
        omega
      rw [List.range_succ_eq_map, List.map_cons, List.map_map, List.flatten_cons]
      have hzero : ((data.drop (0 * c)).take c) = data.take c := by
        simp
      rw [hzero]
      by_cases hsc : data.length ≤ c
      · have h1 : ceil_div data.length c = 1 := ceil_div_eq_one hs hsc
        have hn : n = 0 := by omega
        subst hn
        simp [List.take_of_length_le hsc]
      · push_neg at hsc
        have h2 : ceil_div (data.length - c) c = n := by
          have := ceil_div_succ_sub hc hsc (s := data.length)
          omega
        have ihd := ih (data.drop c) (by rw [List.length_drop]; exact h2)
        have hmap : (List.range n).map ((fun i => (data.drop (i * c)).take c) ∘ Nat.succ)
            = (List.range n).map (fun i => ((data.drop c).drop (i * c)).take c) := by
          apply List.map_congr_left
          intro i _
          simp only [Function.comp_apply]
          rw [List.drop_drop]
          have : Nat.succ i * c = c + i * c := by
            rw [Nat.succ_mul]; omega
          rw [this]
        rw [hmap, ihd, List.take_append_drop]

theorem num_parts_some {s m : Nat} (hs : 0 < s) (hm : 0 < m) :
    num_parts_of s m = some (ceil_div s (chunk_size s m)) := by
  unfold num_parts_of
  rw [if_neg]
  have := chunk_size_pos hs hm
  omega

theorem plan_parts_eq {s m : Nat} (hs : 0 < s) (hm : 0 < m) :
    plan_parts s m = some ((List.range (ceil_div s (chunk_size s m))).map
      (fun i => (i * chunk_size s m, part_len s (chunk_size s m) i))) := by
  unfold plan_parts
  rw [num_parts_some hs hm]

theorem part_len_le {s c i : Nat} : part_len s c i ≤ c := by
  unfold part_len; split <;> omega

theorem part_len_pos {s c i : Nat} (hc : 0 < c) (hi : i * c < s) : 0 < part_len s c i := by
  unfold part_len; split <;> omega

theorem part_len_end_le {s c i : Nat} (hi : i * c < s) : i * c + part_len s c i ≤ s := by
  unfold part_len; split <;> omega

theorem read_range_part {data : List Nat} {c i : Nat} :
    read_range data (i * c) (part_len data.length c i) = (data.drop (i * c)).take c := by
  unfold read_range part_len
  split
  · rfl
  · next h =>
    push_neg at h
    have hlen : (data.drop (i * c)).length = data.length - i * c := List.length_drop _ _
    rw [List.take_of_length_le (by omega), List.take_of_length_le (by omega)]

/-- C6: for every nonempty source object and any part-size ceiling, the byte
strings delivered to uploadPart, concatenated in ascending part-number order
(the delivered list is strictly ascending in part number), reproduce the
original source bytes exactly.  Concurrency does not enter the model because
each worker's read and tag are a pure function of its part index; a zero-byte
source never reaches uploadPart (see C3). -/
theorem c6_round_trip (data : List Nat) (m : Nat) (hm : 0 < m) (hd : 0 < data.length) :
    ((delivered_uploads data m).map Prod.snd).flatten = data
    ∧ List.Pairwise (fun p q => p.1 < q.1) (delivered_uploads data m) := by
  have hc : 0 < chunk_size data.length m := chunk_size_pos hd hm
  have hdel : delivered_uploads data m
      = (List.range (ceil_div data.length (chunk_size data.length m))).map
        (fun i => (i + 1, read_range data (i * chunk_size data.length m)
          (part_len data.length (chunk_size data.length m) i))) := by
    unfold delivered_uploads
    rw [num_parts_some hd hm]
  constructor
  · rw [hdel, List.map_map]
    have hcongr : (List.range (ceil_div data.length (chunk_size data.length m))).map
          (Prod.snd ∘ fun i => (i + 1, read_range data (i * chunk_size data.length m)
            (part_len data.length (chunk_size data.length m) i)))
        = (List.range (ceil_div data.length (chunk_size data.length m))).map
          (fun i => (data.drop (i * chunk_size data.length m)).take (chunk_size data.length m)) := by
      apply List.map_congr_left
      intro i _
      simp only [Function.comp_apply]
      exact read_range_part
    rw [hcongr]
    exact flatten_chunks hc _ data rfl
  · rw [hdel, List.pairwise_map]
    apply List.Pairwise.imp ?_ (List.pairwise_lt_range _)
    intro a b hab
    simpa using hab

/-- C7: the claim asserts the planner's behaviour for all size at least 0, with
numParts equal to 0 iff size equals 0.  First conjunct: at size 0 the code
does not plan zero parts — the part-count computation fails (ZeroDivisionError
from a zero chunk size), modelled as none.  Second conjunct: for size > 0 the
plan exists, has ceil(size / min(size, maxPartSize)) parts (at least one), the
parts are ordered and pairwise disjoint, each has positive length at most
maxPartSize, and their union is exactly the interval from 0 to size. -/
theorem c7_partition (s m : Nat) (hs : 0 < s) (hm : 0 < m) :
    (∀ k, plan_parts 0 k = none)
    ∧ ∃ ps, plan_parts s m = some ps
        ∧ ps.length = ceil_div s (min s m)
        ∧ 1 ≤ ps.length
        ∧ List.Pairwise (fun p q => p.1 + p.2 ≤ q.1) ps
        ∧ (∀ p ∈ ps, 0 < p.2 ∧ p.2 ≤ m)
        ∧ (∀ x, x < s ↔ ∃ p ∈ ps, p.1 ≤ x ∧ x < p.1 + p.2) := by
  constructor
  · intro k
    have hz : chunk_size 0 k = 0 := by unfold chunk_size; split <;> omega
    unfold plan_parts num_parts_of
    rw [hz]
    rfl
  · have hc : 0 < chunk_size s m := chunk_size_pos hs hm
    have hcm : chunk_size s m ≤ m := by rw [chunk_size_eq_min]; omega
    refine ⟨_, plan_parts_eq hs hm, ?_, ?_, ?_, ?_, ?_⟩
    · rw [List.length_map, List.length_range, chunk_size_eq_min]
    · rw [List.length_map, List.length_range]
      exact ceil_div_pos hc hs
    · rw [List.pairwise_map]
      apply List.Pairwise.imp ?_ (List.pairwise_lt_range _)
      intro a b hab
      have h1 : part_len s (chunk_size s m) a ≤ chunk_size s m := part_len_le
      calc a * chunk_size s m + part_len s (chunk_size s m) a
          ≤ a * chunk_size s m + chunk_size s m := by omega
        _ = (a + 1) * chunk_size s m := by ring
        _ ≤ b * chunk_size s m := Nat.mul_le_mul_right _ (by omega)
    · intro p hp
      rw [List.mem_map] at hp
      obtain ⟨i, hi, rfl⟩ := hp
      rw [List.mem_range] at hi
      have hilt : i * chunk_size s m < s := mul_lt_of_lt_ceil_div hc hi
      exact ⟨part_len_pos hc hilt, le_trans part_len_le hcm⟩
    · intro x
      constructor
      · intro hx
        refine ⟨(x / chunk_size s m * chunk_size s m,
            part_len s (chunk_size s m) (x / chunk_size s m)), ?_, ?_, ?_⟩
        · rw [List.mem_map]
          refine ⟨x / chunk_size s m, ?_, rfl⟩
          rw [List.mem_range, ceil_div_eq_pred_div_add_one hc hs]
          have : x / chunk_size s m ≤ (s - 1) / chunk_size s m :=
            Nat.div_le_div_right (by omega)
          omega
        · exact Nat.div_mul_le_self x _
        · have hdm := Nat.div_add_mod x (chunk_size s m)
          have hmod : x % chunk_size s m < chunk_size s m := Nat.mod_lt _ hc
          unfold part_len
          split
          · rw [Nat.mul_comm]
            omega
          · next h =>
            push_neg at h
            have : x / chunk_size s m * chunk_size s m ≤ x := Nat.div_mul_le_self x _
            omega
      · rintro ⟨p, hp, hpx1, hpx2⟩
        rw [List.mem_map] at hp
        obtain ⟨i, hi, rfl⟩ := hp
        rw [List.mem_range] at hi
        have := part_len_end_le (mul_lt_of_lt_ceil_div hc hi)
        omega

/-- C1: the claim says AzureDest.complete commits the staged blocks of parts
1..n in numeric order 1..n.  This fails at n = 4: the block ids are base64
encodings of zero-padded part numbers, and base64 is not monotone with respect
to ASCII code-point order — the encoding of "000004" ends in the character 0
(code 48) while that of "000003" ends in z (code 122), so sorting the id
strings puts part 4 first and the blocks are committed in order [4, 1, 2, 3]
(committed blob [4,1,2,3] for one-byte parts), contradicting the code's own
comment that the zero-padded sort yields numeric order. -/
theorem c1_azure_commit_order_bug :
    AzureDest.commit_order
        (AzureDest.upload_part (AzureDest.upload_part (AzureDest.upload_part
          (AzureDest.upload_part AzureDest.init 1 [1]) 2 [2]) 3 [3]) 4 [4])
      = [block_id 4, block_id 1, block_id 2, block_id 3]
    ∧ AzureDest.complete
        (AzureDest.upload_part (AzureDest.upload_part (AzureDest.upload_part
          (AzureDest.upload_part AzureDest.init 1 [1]) 2 [2]) 3 [3]) 4 [4])
      = [4, 1, 2, 3]
    ∧ block_id 4 ≠ block_id 1 := by
  refine ⟨by decide, by decide, by decide⟩

/-- C2: the claim says a repeated uploadPart with the same part number
overwrites, leaving the finalized object as if uploaded once.  In the code
AzureDest.upload_part appends the block id to the list again, so complete
commits the same staged block twice: uploading part 1 with one byte 7 twice
yields the blob [7, 7] instead of [7]. -/
theorem c2_upload_part_duplicates :
    AzureDest.complete
        (AzureDest.upload_part (AzureDest.upload_part AzureDest.init 1 [7]) 1 [7])
      = [7, 7]
    ∧ AzureDest.complete (AzureDest.upload_part AzureDest.init 1 [7]) = [7]
    ∧ ([7, 7] : List Nat) ≠ [7] := by
  refine ⟨by decide, by decide, by decide⟩

/-- C3: the claim says a zero-byte source plans zero parts, still finalizes
and deletes, and returns success.  In the code a zero-byte source makes
chunk_size zero and the part-count division raises ZeroDivisionError inside
the try, so the except path calls abort once, never finalizes, never deletes
the source, and re-raises: the transfer fails. -/
theorem c3_zero_size_crashes :
    num_parts_of 0 default_chunk = none
    ∧ move_file 0 false false false false =
        { finalizeCalled := false, abortCalls := 1, deleteCalled := false,
          success := false, surfaced := some MoveErr.planError, abortErrorLogged := false } := by
  refine ⟨by decide, by decide⟩

/-- Positivity of the 64 MiB default chunk ceiling. -/
theorem default_chunk_pos : 0 < default_chunk := by decide

/-- C4 counterexample: with finalize succeeding and the source delete failing,
move_file does not return success and does invoke abort on the
already-finalized destination — refuting the claim that the failure is only
logged, success is returned, and abort is never invoked. -/
theorem c4_delete_failure_counterexample :
    (move_file 5 false false true false).success = false
    ∧ (move_file 5 false false true false).abortCalls = 1 := by
  decide

/-- C4 amended: if finalize succeeds and the subsequent source delete fails,
the exception is caught by move_file's generic handler: the transfer raises
the delete error to the caller instead of returning success, and dest.abort()
is invoked on the already-finalized destination, so the handle receives both
terminal calls; only abort's own failure is merely logged. -/
theorem c4_delete_failure_behavior (s : Nat) (a : Bool) (hs : 0 < s) :
    (move_file s false false true a).finalizeCalled = true
    ∧ (move_file s false false true a).abortCalls = 1
    ∧ (move_file s false false true a).deleteCalled = true
    ∧ (move_file s false false true a).success = false
    ∧ (move_file s false false true a).surfaced = some MoveErr.deleteError := by
  unfold move_file
  rw [plan_parts_eq hs default_chunk_pos]
  simp

/-- Witness for C4's amended theorem at size 5 with a failing abort. -/
theorem c4_delete_failure_behavior_witness :
    0 < 5
    ∧ ((move_file 5 false false true true).finalizeCalled = true
      ∧ (move_file 5 false false true true).abortCalls = 1
      ∧ (move_file 5 false false true true).deleteCalled = true
      ∧ (move_file 5 false false true true).success = false
      ∧ (move_file 5 false false true true).surfaced = some MoveErr.deleteError) :=
  ⟨by decide, c4_delete_failure_behavior 5 true (by decide)⟩

/-- C5: when a part exhausts its retries, finalize is never called, abort is
called exactly once, the source is never deleted, and the surfaced error is
the original part error regardless of whether abort itself fails (its failure
is only logged); when instead finalize fails, abort is called exactly once,
the source is never deleted, success is not returned, and the surfaced error
is the finalize error. -/
theorem c5_failure_atomicity (s : Nat) (ff df a : Bool) (hs : 0 < s) :
    ((move_file s true ff df a).finalizeCalled = false
      ∧ (move_file s true ff df a).abortCalls = 1
      ∧ (move_file s true ff df a).deleteCalled = false
      ∧ (move_file s true ff df a).success = false
      ∧ (move_file s true ff df a).surfaced = some MoveErr.partError)
    ∧ ((move_file s false true df a).finalizeCalled = true
      ∧ (move_file s false true df a).abortCalls = 1
      ∧ (move_file s false true df a).deleteCalled = false
      ∧ (move_file s false true df a).success = false
      ∧ (move_file s false true df a).surfaced = some MoveErr.finalizeError) := by
  unfold move_file
  rw [plan_parts_eq hs default_chunk_pos]
  simp

/-- Witness for C5 at size 1 with a failing abort. -/
theorem c5_failure_atomicity_witness :
    0 < 1
    ∧ (((move_file 1 true false false true).finalizeCalled = false
      ∧ (move_file 1 true false false true).abortCalls = 1
      ∧ (move_file 1 true false false true).deleteCalled = false
      ∧ (move_file 1 true false false true).success = false
      ∧ (move_file 1 true false false true).surfaced = some MoveErr.partError)
    ∧ ((move_file 1 false true false true).finalizeCalled = true
      ∧ (move_file 1 false true false true).abortCalls = 1
      ∧ (move_file 1 false true false true).deleteCalled = false
      ∧ (move_file 1 false true false true).success = false
      ∧ (move_file 1 false true false true).surfaced = some MoveErr.finalizeError)) :=
  ⟨by decide, c5_failure_atomicity 1 false false true (by decide)⟩

/-- Witness for C6 on a five-byte object with a two-byte chunk ceiling. -/
theorem c6_round_trip_witness :
    0 < 2 ∧ 0 < ([10, 20, 30, 40, 50] : List Nat).length
    ∧ (((delivered_uploads [10, 20, 30, 40, 50] 2).map Prod.snd).flatten = [10, 20, 30, 40, 50]
      ∧ List.Pairwise (fun p q => p.1 < q.1) (delivered_uploads [10, 20, 30, 40, 50] 2)) :=
  ⟨by decide, by decide, c6_round_trip [10, 20, 30, 40, 50] 2 (by decide) (by decide)⟩

/-- Witness for C7 at size 5 with a part-size ceiling of 2. -/
theorem c7_partition_witness :
    0 < 5 ∧ 0 < 2
    ∧ ((∀ k, plan_parts 0 k = none)
      ∧ ∃ ps, plan_parts 5 2 = some ps
          ∧ ps.length = ceil_div 5 (min 5 2)
          ∧ 1 ≤ ps.length
          ∧ List.Pairwise (fun p q => p.1 + p.2 ≤ q.1) ps
          ∧ (∀ p ∈ ps, 0 < p.2 ∧ p.2 ≤ 2)
          ∧ (∀ x, x < 5 ↔ ∃ p ∈ ps, p.1 ≤ x ∧ x < p.1 + p.2)) :=
  ⟨by decide, by decide, c7_partition 5 2 (by decide) (by decide)⟩

/-- C8: a part whose first two attempts fail and whose third succeeds finishes
successfully with exactly 3 total attempts and the two backoff sleeps [1, 2],
which are strictly increasing; and for every outcome pattern the loop makes at
most 3 total attempts before returning or raising. -/
theorem c8_retry (ok : Nat → Bool) (h0 : ok 0 = false) (h1 : ok 1 = false)
    (h2 : ok 2 = true) :
    transfer_part ok = (true, 3, [1, 2])
    ∧ List.Chain' (· < ·) (transfer_part ok).2.2
    ∧ (∀ o : Nat → Bool, (transfer_part o).2.1 ≤ 3) := by
  have hres : transfer_part ok = (true, 3, [1, 2]) := by
    simp [transfer_part, retry_go, h0, h1, h2]
  refine ⟨hres, ?_, ?_⟩
  · rw [hres]
    exact List.chain'_cons.mpr ⟨by omega, List.chain'_singleton 2⟩
  intro o
  by_cases a0 : o 0 <;> by_cases a1 : o 1 <;> by_cases a2 : o 2 <;>
    simp [transfer_part, retry_go, a0, a1, a2]

/-- Witness for C8 with a part that succeeds on its third execution. -/
theorem c8_retry_witness :
    (fun n => decide (2 ≤ n)) 0 = false
    ∧ (fun n => decide (2 ≤ n)) 1 = false
    ∧ (fun n => decide (2 ≤ n)) 2 = true
    ∧ (transfer_part (fun n => decide (2 ≤ n)) = (true, 3, [1, 2])
      ∧ List.Chain' (· < ·) (transfer_part (fun n => decide (2 ≤ n))).2.2
      ∧ (∀ o : Nat → Bool, (transfer_part o).2.1 ≤ 3)) :=
  ⟨rfl, rfl, rfl, c8_retry (fun n => decide (2 ≤ n)) rfl rfl rfl⟩

/-- C9: for a planned part count of at least one (which every successful plan
has, last conjunct), the pool size used by move_file equals
min(requestedWorkers, max(numParts, 1)), is positive whenever at least one
worker is requested, and the concrete scenarios 10 workers with 2 parts and
4 workers with 3 parts give 2 and 3. -/
theorem c9_effective_concurrency (w n : Nat) (hn : 1 ≤ n) :
    effective_threads w n = min w (max n 1)
    ∧ (1 ≤ w → 0 < effective_threads w n)
    ∧ effective_threads 10 2 = 2
    ∧ effective_threads 4 3 = 3
    ∧ (∀ s m ps, 0 < s → 0 < m → plan_parts s m = some ps → 1 ≤ ps.length) := by
  refine ⟨?_, ?_, by decide, by decide, ?_⟩
  · unfold effective_threads; split <;> omega
  · intro hw; unfold effective_threads; split <;> omega
  · intro s m ps hs hm hps
    rw [plan_parts_eq hs hm] at hps
    have := Option.some.inj hps
    rw [← this, List.length_map, List.length_range]
    exact ceil_div_pos (chunk_size_pos hs hm) hs

/-- Witness for C9 at 10 requested workers and 2 planned parts. -/
theorem c9_effective_concurrency_witness :
    1 ≤ 2
    ∧ (effective_threads 10 2 = min 10 (max 2 1)
      ∧ (1 ≤ 10 → 0 < effective_threads 10 2)
      ∧ effective_threads 10 2 = 2
      ∧ effective_threads 4 3 = 3
      ∧ (∀ s m ps, 0 < s → 0 < m → plan_parts s m = some ps → 1 ≤ ps.length)) :=
  ⟨by decide, c9_effective_concurrency 10 2 (by decide)⟩

/-- Deleting a blob name from the service store leaves no object under that
name, whatever was there before. -/
theorem assoc_get_delete_none (store : List (Nat × List Nat)) (name : Nat) :
    assocGet (azure_delete_blob store name) name = none := by
  induction store with
  | nil => rfl
  | cons hd tl ih =>
    obtain ⟨k, v⟩ := hd
    unfold azure_delete_blob at ih ⊢
    rw [List.filter_cons]
    by_cases h : k = name
    · rw [if_neg (by simp [h])]
      exact ih
    · rw [if_pos (by simp [h])]
      unfold assocGet
      rw [if_neg h]
      exact ih

/-- C10: a failed transfer (here: a part failure) calls abort exactly once,
and AzureDest.abort deletes the destination blob name itself, so an object
that already existed under the destination name before the transfer is gone
afterwards, rather than only the parts uploaded during this transfer being
discarded. -/
theorem c10_abort_deletes_preexisting (store : List (Nat × List Nat)) (name : Nat)
    (pre : List Nat) (s : Nat) (hs : 0 < s)
    (hpre : assocGet store name = some pre) :
    (move_file s true false false false).abortCalls = 1
    ∧ assocGet (AzureDest.abort store name) name = none := by
  constructor
  · unfold move_file
    rw [plan_parts_eq hs default_chunk_pos]
    simp
  · exact assoc_get_delete_none store name

/-- Witness for C10 with one pre-existing blob at the destination name. -/
theorem c10_abort_deletes_preexisting_witness :
    0 < 1
    ∧ assocGet [((0 : Nat), [9])] 0 = some [9]
    ∧ ((move_file 1 true false false false).abortCalls = 1
      ∧ assocGet (AzureDest.abort [((0 : Nat), [9])] 0) 0 = none) :=
  ⟨by decide, by decide, c10_abort_deletes_preexisting [(0, [9])] 0 [9] 1 (by decide) (by decide)⟩
